import Mathlib

/-!
# Verification of the port-classification / traffic-normalization logic of
# `switch_port_card_pro`

This file gives a shallow embedding, in Lean 4, of the pure classification
and formatting logic of the `switch_port_card_pro` dashboard card, and proves
(or refutes) the specification claims about it.

The repository contains two executable revisions of the card:

* `src/www/community/switch-port-card-pro/switch-port-card-pro.js` — an
  earlier revision (no color schemes).  Its definitions are embedded in
  namespace `CardV0`.
* `src/unnamed/part_006` — the newest revision (color schemes, layouts,
  scheme button).  Its definitions are embedded in namespace `CardV1`.

Modelling conventions:

* JavaScript numbers are modelled as exact rationals `ℚ`; `NaN` (which the
  code tests with `isNaN` and with `||` falsiness) is modelled by the
  two-constructor type `JSNum`.
* `Math.round` is modelled by `jsRound` (floor of `x + 1/2`, which is what
  `Math.round` computes for every finite input), `Math.floor` by `⌊·⌋`,
  and the JS `%` on numbers by `jsMod` (truncated remainder).
* Missing / `undefined` attributes are modelled with `Option`; the JS `||`
  defaulting idiom (which also replaces `0`, `NaN` and `""`) is modelled by
  the `jsOr*` helpers, which replace exactly the falsy values.
* `String.prototype.includes`, `toLowerCase`, `trim`, `slice` are modelled
  by `jsIncludes`, `lowerStr`, `trimStr`, `takeStr` over the character
  lists of the strings (the library versions do not reduce in the kernel).
* DOM writes are modelled by returning the written content in a record:
  `innerHTML` of a port tile becomes a `DisplayDescriptor`, the whole
  `_render` pass becomes a `RenderOutput`.  CSS class strings are modelled
  as the list of classes; the HTML markup around the content is dropped.
* `hass.states` lookups (system-box overrides) are modelled as
  already-resolved entity values handed to `_render`, matching the spec's
  description of the entity store as an external collaborator.
-/

namespace SwitchPortCard

/-- A JavaScript number: `NaN`, or a finite value (modelled exactly as `ℚ`). -/
inductive JSNum where
  | nan : JSNum
  | num : ℚ → JSNum
deriving DecidableEq, Repr

/-- `Math.round x` = `⌊x + 1/2⌋` (round half towards `+∞`) for finite `x`. -/
def jsRound (q : ℚ) : ℤ := ⌊q + 1/2⌋

theorem jsRound_eq_iff {q : ℚ} {z : ℤ} :
    jsRound q = z ↔ (z : ℚ) ≤ q + 1/2 ∧ q + 1/2 < z + 1 := by
  unfold jsRound
  rw [Int.floor_eq_iff]

theorem jsRound_nonpos_of_neg {q : ℚ} (h : q < 0) : jsRound q ≤ 0 := by
  have : jsRound q < 1 := by
    unfold jsRound
    rw [Int.floor_lt]
    push_cast
    linarith
  omega

/-- Truncation towards zero (the JS `Math.trunc`, and the rounding used by
the JS `%` operator). -/
def jsTrunc (q : ℚ) : ℤ := if q < 0 then -⌊-q⌋ else ⌊q⌋

/-- The JS `%` operator on numbers: remainder with truncated division. -/
def jsMod (a b : ℚ) : ℚ := a - b * (jsTrunc (a / b) : ℚ)

/-- `parseFloat(x || 0) || 0` applied to an optional attribute: a missing
attribute and `NaN` both collapse to `0`. -/
def jsNumOr0 : Option JSNum → ℚ
  | none => 0
  | some JSNum.nan => 0
  | some (JSNum.num q) => q

/-- JS `||` defaulting for an optional string (replaces missing and `""`). -/
def jsOrStr (o : Option String) (d : String) : String :=
  match o with
  | none => d
  | some s => if s = "" then d else s

/-- JS `||` defaulting for an optional natural number (replaces missing and `0`). -/
def jsOrNat (o : Option ℕ) (d : ℕ) : ℕ :=
  match o with
  | none => d
  | some n => if n = 0 then d else n

/-- JS `||` defaulting for an optional rational (replaces missing and `0`). -/
def jsOrQ (o : Option ℚ) (d : ℚ) : ℚ :=
  match o with
  | none => d
  | some q => if q = 0 then d else q

/-- JS truthiness of an optional numeric id (`undefined` and `0` are falsy). -/
def jsTruthyNat : Option ℕ → Bool
  | none => false
  | some v => v != 0

/-- `pat` occurs at the start of `s` (character-exact). -/
def isPrefixAt : List Char → List Char → Bool
  | [], _ => true
  | _ :: _, [] => false
  | a :: as, b :: bs => a == b && isPrefixAt as bs

/-- `pat` occurs somewhere in `s` (character lists). -/
def hasSubAux (pat : List Char) : List Char → Bool
  | [] => isPrefixAt pat []
  | c :: rest => isPrefixAt pat (c :: rest) || hasSubAux pat rest

/-- `String.prototype.includes`. -/
def jsIncludes (s pat : String) : Bool := hasSubAux pat.toList s.toList

/-- `String.prototype.toLowerCase` (ASCII, which is all the code compares). -/
def lowerStr (s : String) : String := String.mk (s.data.map Char.toLower)

/-- Whitespace test used by `trimStr`. -/
def isWsChar (c : Char) : Bool := c == ' ' || c == '\t' || c == '\n' || c == '\r'

/-- `String.prototype.trim`. -/
def trimStr (s : String) : String :=
  String.mk (((s.data.dropWhile isWsChar).reverse.dropWhile isWsChar).reverse)

/-- `String.prototype.slice(0, n)`. -/
def takeStr (s : String) (n : ℕ) : String := String.mk (s.data.take n)

/-- Left-pad a digit string with zeros to width `w`. -/
def padZeros (w : ℕ) (s : String) : String :=
  String.mk (List.replicate (w - s.length) '0') ++ s

/-- `Number.prototype.toFixed(d)` on an exact rational: round to `d` decimal
digits (half towards `+∞`) and print with exactly `d` decimals. -/
def qToFixed (d : ℕ) (q : ℚ) : String :=
  let s : ℤ := jsRound (q * ((10 : ℚ) ^ d))
  let sign := if s < 0 then "-" else ""
  let n := s.natAbs
  let ip := n / 10 ^ d
  let fp := n % 10 ^ d
  if d = 0 then sign ++ toString ip
  else sign ++ toString ip ++ "." ++ padZeros d (toString fp)

/-- Stable insertion of `a` into a list ordered by `le`. -/
def insertLe {α : Type} (le : α → α → Bool) (a : α) : List α → List α
  | [] => [a]
  | b :: bs => if le a b then a :: b :: bs else b :: insertLe le a bs

/-- Sort by `le` (models the JS `Array.prototype.sort` comparators used by the
card, which always compare the distinct port indices). -/
def sortLe {α : Type} (le : α → α → Bool) (l : List α) : List α :=
  l.foldr (insertLe le) []

/-!
## `CardV0`: src/www/community/switch-port-card-pro/switch-port-card-pro.js

The earlier revision of the card.  It contains the canonical
`normalizeBandwidthUnit` (bandwidth header, lines 208–224) and the canonical
speed-tier classification guarded by `isOn && speedMbps > 0`
(lines 295–308).
-/

namespace CardV0

/-- Bandwidth unit normalization to Mbps, lines 208–224 of
`switch-port-card-pro.js`:

```js
if (u.includes("mbit") && val > 1000)      { val = val / 1000; }
else if (u.includes("bit/s") && !u.includes("mbit")
         && !u.includes("kbit") && !u.includes("gbit")) { val = val / 1e6; }
else if (u.includes("kbit"))               { val = val / 1e3; }
else if (u.includes("gbit"))               { val = val * 1e3; }
```
with `u` the lower-cased unit label. -/
def normalizeBandwidthUnit (val : ℚ) (unitLabel : String) : ℚ :=
  let u := lowerStr unitLabel
  if jsIncludes u "mbit" && decide (val > 1000) then val / 1000
  else if jsIncludes u "bit/s" && !jsIncludes u "mbit" && !jsIncludes u "kbit"
      && !jsIncludes u "gbit" then val / 1000000
  else if jsIncludes u "kbit" then val / 1000
  else if jsIncludes u "gbit" then val * 1000
  else val

/-- `Math.round((ent.attributes?.speed_bps || 0) / 1e6) || 0`
(line 278 of `switch-port-card-pro.js`). -/
def speedMbpsOf : Option JSNum → ℤ
  | none => 0
  | some JSNum.nan => 0
  | some (JSNum.num q) => jsRound (q / 1000000)

/-- Speed tier (CSS class, badge text) of a port, lines 295–305 of
`switch-port-card-pro.js`.  The classification runs only when
`isOn && speedMbps > 0`; otherwise class `"off"` / text `"OFF"` stand. -/
def classifySpeedTier (speed : Option JSNum) (isUp : Bool) : String × String :=
  let speedMbps := speedMbpsOf speed
  if isUp && decide (speedMbps > 0) then
    if speedMbps ≥ 10000 then ("on-10g", "10G")
    else if speedMbps ≥ 5000 then ("on-5g", "5G")
    else if speedMbps ≥ 2500 then ("on-2_5g", "2.5G")
    else if speedMbps ≥ 1000 then ("on-1g", "1G")
    else if speedMbps ≥ 100 then ("on-100m", "100M")
    else if speedMbps ≥ 10 then ("on-10m", "10M")
    else ("off", toString speedMbps ++ "M")
  else ("off", "OFF")

/-- Full per-port classification of the earlier revision
(class, text, direction), lines 295–308 of `switch-port-card-pro.js`.
The direction arrow is only computed inside the `isOn && speedMbps > 0`
guard. -/
def classifyPort (speed : Option JSNum) (rx tx : ℚ) (isUp : Bool) :
    String × String × String :=
  let speedMbps := speedMbpsOf speed
  let ct := classifySpeedTier speed isUp
  let direction :=
    if isUp && decide (speedMbps > 0) then
      if rx > tx * 1.8 then "Down"
      else if tx > rx * 1.8 then "Up"
      else ""
    else ""
  (ct.1, ct.2, direction)

end CardV0

/-!
## `CardV1`: src/unnamed/part_006

The newest revision of the card: color schemes (`speed`, `heatmap`, `vlan`,
`actual_speed`), port layouts, row-content selection, tooltips with a
"last seen" line.
-/

namespace CardV1

/-- `formatTraffic`, lines 697–703 of `part_006`:

```js
if (!bps || isNaN(bps) || bps === 0) return `0K`;
const mbps = bps / 1e6;
if (mbps >= 1000) return `${Math.round(mbps / 1000)}G`;
if (mbps >= 1) return `${Math.round(mbps)}M`;
return `${Math.round(bps / 1000)}K`;
``` -/
def formatTraffic : JSNum → String
  | JSNum.nan => "0K"
  | JSNum.num bps =>
    if bps = 0 then "0K"
    else
      let mbps := bps / 1000000
      if mbps ≥ 1000 then toString (jsRound (mbps / 1000)) ++ "G"
      else if mbps ≥ 1 then toString (jsRound mbps) ++ "M"
      else toString (jsRound (bps / 1000)) ++ "K"

/-- `Math.max(...allPorts.map(p => p.traffic), 1)`, line 785 of `part_006`:
the maximum combined throughput of the batch, floored at 1. -/
def maxTrafficOf (traffics : List ℚ) : ℚ := traffics.foldr max 1

/-- The heatmap color-scheme branch, lines 860–871 of `part_006`:

```js
const ratio = maxTraffic > 0 ? traffic / maxTraffic : 0;
if (ratio > 0.9) speedClass = "heatmap-10";
else if (ratio > 0.8) speedClass = "heatmap-9";
...
else speedClass = "heatmap-1";
``` -/
def heatmapClass (traffic maxTraffic : ℚ) : String :=
  let ratio := if maxTraffic > 0 then traffic / maxTraffic else 0
  if ratio > 0.9 then "heatmap-10"
  else if ratio > 0.8 then "heatmap-9"
  else if ratio > 0.7 then "heatmap-8"
  else if ratio > 0.6 then "heatmap-7"
  else if ratio > 0.5 then "heatmap-6"
  else if ratio > 0.4 then "heatmap-5"
  else if ratio > 0.3 then "heatmap-4"
  else if ratio > 0.2 then "heatmap-3"
  else if ratio > 0.1 then "heatmap-2"
  else "heatmap-1"

/-- The `speed` color-scheme branch, lines 849–856 of `part_006` (note: in
this revision an up port whose rounded speed is `0` — or negative — falls
into the `on-0m` literal branch instead of `OFF`). -/
def speedSchemeOf (speedMbps : ℤ) : String × String :=
  if speedMbps ≥ 10000 then ("on-10g", "10G")
  else if speedMbps ≥ 5000 then ("on-5g", "5G")
  else if speedMbps ≥ 2500 then ("on-2_5g", "2.5G")
  else if speedMbps ≥ 1000 then ("on-1g", "1G")
  else if speedMbps ≥ 100 then ("on-100m", "100M")
  else if speedMbps ≥ 10 then ("on-10m", "10M")
  else ("on-0m", toString speedMbps ++ "M")

/-- The `actual_speed` color-scheme branch, lines 878–885 of `part_006`. -/
def actualSpeedOf (totalBps : ℚ) : String × String :=
  let mbps := totalBps / 1000000
  if mbps ≥ 100 then ("actual-100m", qToFixed 1 (mbps / 1000) ++ "G")
  else if mbps ≥ 10 then ("actual-10m", qToFixed 1 mbps ++ "M")
  else if mbps ≥ 1 then ("actual-1m", qToFixed 0 mbps ++ "M")
  else if mbps ≥ 0.1 then ("actual-100k", qToFixed 0 (mbps * 10) ++ "K")
  else if mbps > 0.001 then ("actual-1k", qToFixed 0 (mbps * 100) ++ "K")
  else ("actual-off", "0k")

/-- The direction glyph, lines 918–925 of `part_006`:

```js
if (isOn) {
  ...
  if (rxBps > txBps * 1.8) direction = "↓";
  else if (txBps > rxBps * 1.8) direction = "↑";
  else direction = "↕";
} else { speedText = "-"; direction = "-"; }
```
`"↓"` = incoming-dominant (`DOWN`), `"↑"` = outgoing-dominant (`UP`),
`"↕"` = balanced, `"-"` = no direction (`NONE`). -/
def classifyDirection (rx tx : ℚ) (isOn : Bool) : String :=
  if isOn then
    if rx > tx * 1.8 then "↓"
    else if tx > rx * 1.8 then "↑"
    else "↕"
  else "-"

/-- The fixed 20-entry VLAN palette, lines 492–497 of `part_006` (identical
to lines 175–180 of `switch-port-card-pro.js`). -/
def vlanColors : List String :=
  ["#dc5d87ff", "#7b6291ff", "#7f798aff", "#434f94ff", "#57a5e4ff",
   "#015881ff", "#00bcd4", "#009688", "#4caf50", "#8bc34a",
   "#ffc107", "#ff9800", "#ff5722", "#795548", "#607d8b",
   "#4fc3f7", "#ba68c8", "#ffb74d", "#aed581", "#ce93d8"]

/-- `_vlanColor`, lines 490–499 of `part_006`:

```js
if (!vlan) return "transparent";
...
return colors[vlan % colors.length];
```
Note `!vlan` is also true for `vlan === 0`. -/
def vlanColor (vlan : Option ℕ) : String :=
  if jsTruthyNat vlan = false then "transparent"
  else (vlanColors.getD ((vlan.getD 0) % vlanColors.length) "")

/-- The background assigned under the `vlan` scheme, line 908 of `part_006`:
`const bg = vlan ? this._vlanColor(vlan) : "#607d8b";`. -/
def vlanSchemeBg (vlan : Option ℕ) : String :=
  if jsTruthyNat vlan then vlanColor vlan else "#607d8b"

/-- `_formatLastSeen`, lines 467–474 of `part_006`. -/
def formatLastSeen (seconds : ℚ) : String :=
  if seconds ≤ 0 then "—"
  else
    let days : ℤ := ⌊seconds / 86400⌋
    let hours : ℤ := ⌊(jsMod seconds 86400) / 3600⌋
    if days > 0 then toString days ++ "d " ++ toString hours ++ "h"
    else if hours > 0 then toString hours ++ "h"
    else "<1h"

/-- `_formatTime`, lines 502–507 of `part_006` (uptime box). -/
def formatTime (s : ℚ) : String :=
  if s = 0 then "—"
  else
    let h : ℤ := ⌊s / 3600⌋
    let d : ℤ := ⌊(h : ℚ) / 24⌋
    if d > 0 then toString d ++ "d " ++ toString (Int.emod h 24) ++ "h"
    else if h > 0 then toString h ++ "h " ++ toString (⌊(jsMod s 3600) / 60⌋ : ℤ) ++ "m"
    else toString (⌊s / 60⌋ : ℤ) ++ "m"

/-- The bandwidth-unit normalization of this revision, lines 626–634 of
`part_006` (also used, value-only, for the gauge at lines 684–693):

```js
if (u.includes("gbit") || (u.includes("mbit") && val > 1000)) {
  val = val / 1000; unit = "Gbps";
} else if (u.includes("bit/s") && !u.includes("mbit") && !u.includes("kbit")
           && !u.includes("gbit")) { val = val / 1e6; }
else if (u.includes("kbit")) { val = val / 1e3; }
```
Returns the displayed value together with the displayed unit. -/
def normalizeBw (val : ℚ) (u : String) : ℚ × String :=
  if jsIncludes u "gbit" || (jsIncludes u "mbit" && decide (val > 1000)) then
    (val / 1000, "Gbps")
  else if jsIncludes u "bit/s" && !jsIncludes u "mbit" && !jsIncludes u "kbit"
      && !jsIncludes u "gbit" then (val / 1000000, "Mbps")
  else if jsIncludes u "kbit" then (val / 1000, "Mbps")
  else (val, "Mbps")

end CardV1

/-- The non-breaking-space placeholder `' '` used for empty cells. -/
def nbsp : String := " "

/-- The `system_boxes` configuration flags (part of `DEFAULT_CONFIG`). -/
structure SysBoxes where
  cpu : Bool
  memory : Bool
  uptime : Bool
  hostname : Bool
  poe : Bool
  firmware : Bool
  custom : Bool
deriving DecidableEq, Repr

/-- The card configuration options read by `_render` / `renderPortRow` of
`part_006`.  `show_total_bandwidth` / `show_system_info` model the
`!== false` tests, `truncate_text` the `!== true` test. -/
structure Config where
  name : Option String
  color_scheme : Option String
  total_ports : Option ℕ
  sfp_start_port : Option ℕ
  ports_per_row : Option ℕ
  layout_mode : Option String
  row2 : Option String
  row3 : Option String
  port_size : Option String
  truncate_text : Bool
  custom_port_text : String
  custom_text : String
  hide_unused_port : Bool
  hide_unused_port_hours : ℚ
  max_bandwidth_gbps : Option ℚ
  show_total_bandwidth : Bool
  show_system_info : Bool
  system_boxes : SysBoxes

/-- A `port_<i>_status` entity: its state string and the attributes read by
the card.  Raw numeric attributes that the code feeds through
`parseFloat`/`Math.round` are `Option JSNum`; `parseInt`-read lifetime
counters are `Option ℤ`. -/
structure PortEnt where
  state : String
  speed_bps : Option JSNum
  rx_bps_live : Option JSNum
  tx_bps_live : Option JSNum
  rx_bps : Option ℤ
  tx_bps : Option ℤ
  port_name : Option String
  vlan_id : Option ℕ
  poe_enabled : Option Bool
  interface : Option String
  custom : Option String
  last_changed : ℚ

/-- The total-bandwidth entity: numeric state (if any) and its
`unit_of_measurement` attribute. -/
structure BwEntity where
  state : Option ℚ
  unit_of_measurement : String

/-- The entity map `this._entities` collected by the card, with the
system-box override lookups already resolved (the entity store is an
external collaborator).  `keys` models `Object.keys(e)`. -/
structure SwitchEntities where
  keys : List String
  bandwidth : Option BwEntity
  cpu : Option ℚ
  memory : Option ℚ
  uptime : Option ℚ
  hostname : Option String
  total_poe : Option String
  firmware : Option String
  custom_value : Option String
  ports : ℕ → Option PortEnt

/-- The `ctx` record handed to `renderRowContent`, lines 939–949 of
`part_006`. -/
structure RowCtx where
  rxBpsLifetime : ℤ
  txBpsLifetime : ℤ
  rxBps : ℚ
  txBps : ℚ
  speedText : String
  port_custom : String
  name : String
  ifDescr : String
  vlan : Option ℕ
deriving DecidableEq, Repr

/-- The rendered content of one port tile (the semantic content of the
`div` built at lines 900–968 of `part_006`): its CSS classes, badge texts,
direction glyph, VLAN colors, optional row contents and the tooltip lines
(`div.title`, split at `\n`). -/
structure DisplayDescriptor where
  portNum : ℕ
  cssClasses : List String
  speedClass : String
  speedText : String
  directionDisplay : String
  vlanDotColor : String
  background : Option String
  row2 : Option String
  row3 : Option String
  showPoe : Bool
  tooltip : List String
deriving DecidableEq, Repr

/-- A port surviving the first collection pass, lines 772–783 of
`part_006` (`allPorts`), plus the `isOn` flag added by the visibility pass. -/
structure VisPort where
  i : ℕ
  ent : PortEnt
  traffic : ℚ
  isOn : Bool

namespace CardV1

/-- The `truncate` helper inside `renderRowContent`, lines 712–730 of
`part_006`. -/
def truncateText (cfg : Config) (portSize : String) (str : String) : String :=
  if cfg.truncate_text = false then str
  else if str = "" then nbsp
  else
    let s := trimStr str
    let maxChars : ℕ :=
      if portSize = "xsmall" then 12
      else if portSize = "small" then 11
      else if portSize = "medium" then 10
      else if portSize = "large" then 9
      else if portSize = "xlarge" then 7
      else 10
    if s.length ≤ maxChars then s else takeStr s (maxChars - 2) ++ ".."

/-- `renderRowContent`, lines 705–757 of `part_006`: the content of the
configurable second/third row of a port tile (`none` models the `null`
returned for `"none"`). -/
def renderRowContent (cfg : Config) (field : Option String) (ctx : RowCtx)
    (portIsOn : Bool) : Option String :=
  let key := trimStr (lowerStr (jsOrStr field ""))
  let sz := jsOrStr cfg.port_size "small"
  if key = "none" then none
  else if key = "rx_tx_live" ∨ key = "rx/tx_live" ∨ key = "live" then
    some (formatTraffic (JSNum.num ctx.rxBps) ++ "-" ++ formatTraffic (JSNum.num ctx.txBps))
  else if key = "rx_tx" ∨ key = "rx/tx" ∨ key = "lifetime" ∨ key = "total" then
    some (formatTraffic (JSNum.num (ctx.rxBpsLifetime : ℚ)) ++ "-"
      ++ formatTraffic (JSNum.num (ctx.txBpsLifetime : ℚ)))
  else if key = "speed" then
    some (if portIsOn then jsOrStr (some ctx.speedText) nbsp else nbsp)
  else if key = "port_custom" ∨ key = "custom" then
    some (jsOrStr (some (truncateText cfg sz ctx.port_custom)) nbsp)
  else if key = "name" then
    some (jsOrStr (some (truncateText cfg sz ctx.name)) nbsp)
  else if key = "interface" then
    some (jsOrStr (some (truncateText cfg sz ctx.ifDescr)) nbsp)
  else if key = "vlan_id" ∨ key = "vlan" then
    some (if jsTruthyNat ctx.vlan then "VLAN " ++ toString (ctx.vlan.getD 0) else nbsp)
  else some nbsp

/-- `hasRow3`, line 767 of `part_006`:
`this._config.row3 && this._config.row3.toLowerCase() !== "none"`. -/
def hasRow3 (cfg : Config) : Bool :=
  match cfg.row3 with
  | none => false
  | some s => s ≠ "" && lowerStr s ≠ "none"

/-- The body of `renderPortRow` for one port, lines 825–968 of `part_006`,
returning the rendered tile as a `DisplayDescriptor`. -/
def renderPortRow (cfg : Config) (sfpStart : ℕ) (maxTraffic now : ℚ)
    (p : VisPort) : DisplayDescriptor :=
  let speedMbps : ℤ :=
    match p.ent.speed_bps with
    | none => 0
    | some JSNum.nan => 0
    | some (JSNum.num q) => jsRound (q / 1000000)
  let name := jsOrStr (p.ent.port_name.map trimStr) ("Port " ++ toString p.i)
  let vlan := p.ent.vlan_id
  let poeEnabled := p.ent.poe_enabled = some true
  let ifDescr := jsOrStr p.ent.interface ""
  let port_custom := jsOrStr p.ent.custom ""
  let rxBps := jsNumOr0 p.ent.rx_bps_live
  let txBps := jsNumOr0 p.ent.tx_bps_live
  let rxBpsLifetime : ℤ := p.ent.rx_bps.getD 0
  let txBpsLifetime : ℤ := p.ent.tx_bps.getD 0
  let idleSeconds := now - p.ent.last_changed
  let scheme := jsOrStr cfg.color_scheme "speed"
  let totalBps := rxBps + txBps
  let ct : String × String :=
    if p.isOn then
      if scheme = "speed" then speedSchemeOf speedMbps
      else if scheme = "heatmap" then
        (heatmapClass p.traffic maxTraffic, formatTraffic (JSNum.num p.traffic))
      else if scheme = "vlan" then ("vlan-colored", "OFF")
      else if scheme = "actual_speed" then actualSpeedOf totalBps
      else ("on-1g", "OFF")
    else ("off", "-")
  let speedClass := ct.1
  let speedText := ct.2
  let direction := classifyDirection rxBps txBps p.isOn
  let size := jsOrStr cfg.port_size "medium"
  let background :=
    if cfg.color_scheme = some "vlan" then some (vlanSchemeBg vlan) else none
  let directionDisplay :=
    if p.isOn then (if direction = "↓" ∨ direction = "↑" then direction else "↕")
    else "-"
  let ctx : RowCtx :=
    { rxBpsLifetime := rxBpsLifetime, txBpsLifetime := txBpsLifetime,
      rxBps := rxBps, txBps := txBps, speedText := speedText,
      port_custom := port_custom, name := name, ifDescr := ifDescr, vlan := vlan }
  let row2Content := renderRowContent cfg cfg.row2 ctx p.isOn
  let row3Content := renderRowContent cfg cfg.row3 ctx p.isOn
  let lastSeen := "Last seen: " ++ formatLastSeen idleSeconds
  { portNum := p.i
    cssClasses :=
      ["port", speedClass] ++ (if p.i ≥ sfpStart then ["sfp"] else [])
        ++ (if p.isOn = false then ["off"] else []) ++ ["size-" ++ size]
        ++ (if hasRow3 cfg = false then ["no-row3"] else [])
    speedClass := speedClass
    speedText := speedText
    directionDisplay := directionDisplay
    vlanDotColor := vlanColor vlan
    background := background
    row2 := row2Content
    row3 := if hasRow3 cfg then row3Content else none
    showPoe := poeEnabled
    tooltip :=
      [name] ++ (if ifDescr ≠ "" then ["Interface: " ++ ifDescr] else [])
        ++ ["State: " ++ (if p.isOn then "UP" else "DOWN")]
        ++ ["Speed: " ++ speedText]
        ++ (if jsTruthyNat vlan then ["VLAN: " ++ toString (vlan.getD 0)] else [])
        ++ ["RX: " ++ qToFixed 2 (rxBps / 1000000) ++ " Mb/s"]
        ++ ["TX: " ++ qToFixed 2 (txBps / 1000000) ++ " Mb/s"]
        ++ (if port_custom ≠ "" then [cfg.custom_port_text ++ ": " ++ port_custom] else [])
        ++ [lastSeen] }

/-- One system info box: `makeBox` (lines 643–650 of `part_006`) guarded by
its `system_boxes` flag; rendered as a (value, label) pair. -/
def makeBox (flag : Bool) (value : Option String) (label : String) :
    List (String × String) :=
  if flag then
    match value with
    | none => []
    | some v => if v = "unknown" then [] else [(v, label)]
  else []

/-- The system-boxes grid, lines 640–671 of `part_006` (override lookups
already resolved into the entity values, see the module docstring). -/
def buildSystemBoxes (cfg : Config) (e : SwitchEntities) :
    List (String × String) :=
  let sysCfg := cfg.system_boxes
  makeBox sysCfg.cpu (e.cpu.map (fun q => toString (jsRound q) ++ "%")) "CPU"
    ++ makeBox sysCfg.memory (e.memory.map (fun q => toString (jsRound q) ++ "%")) "Memory"
    ++ makeBox sysCfg.uptime (e.uptime.map formatTime) "Up-time"
    ++ makeBox sysCfg.hostname e.hostname "Host"
    ++ makeBox sysCfg.poe (e.total_poe.map (· ++ " W")) "PoE Total"
    ++ makeBox sysCfg.firmware e.firmware "Firmware"
    ++ makeBox sysCfg.custom e.custom_value cfg.custom_text

/-- The outcome of one `_render` pass of `part_006`, as the content written
to the card's DOM: `noData` is the replacement header of the empty-entities
early return; `copper`/`sfp` are the rendered port tiles in DOM order
(top row then bottom row for staggered layouts). -/
structure RenderOutput where
  noData : Option String
  title : Option String
  bandwidthText : Option String
  systemBoxes : Option (List (String × String))
  gaugePct : Option ℚ
  copper : List DisplayDescriptor
  sfp : List DisplayDescriptor

/-- `_render`, lines 593–996 of `part_006` (the DOM-independent content; see
the module docstring for the modelling conventions). -/
def render (e : SwitchEntities) (cfg : Config) (now : ℚ) : RenderOutput :=
  if e.keys.isEmpty then
    { noData := some "No data — check integration", title := none,
      bandwidthText := none, systemBoxes := none, gaugePct := none,
      copper := [], sfp := [] }
  else
    let title := jsOrStr cfg.name (jsOrStr (e.hostname.map trimStr) "Switch")
    let bwText :=
      match e.bandwidth with
      | none => "— Mbps"
      | some bw =>
        match bw.state with
        | none => "— Mbps"
        | some val =>
          let u := lowerStr bw.unit_of_measurement
          let vu := normalizeBw val u
          qToFixed 1 vu.1 ++ " " ++ vu.2
    let system := if cfg.show_system_info then some (buildSystemBoxes cfg e) else some []
    let gauge :=
      if cfg.show_total_bandwidth then
        match e.bandwidth with
        | none => none
        | some bw =>
          match bw.state with
          | none => none
          | some val =>
            let u := lowerStr bw.unit_of_measurement
            let v := (normalizeBw val u).1
            some (min ((v / ((jsOrQ cfg.max_bandwidth_gbps 100) * 1000)) * 100) 100)
      else none
    let total := jsOrNat cfg.total_ports 8
    let sfpStart := jsOrNat cfg.sfp_start_port 9
    let timeperiod := cfg.hide_unused_port_hours * 3600
    let allPorts : List (ℕ × PortEnt × ℚ) :=
      (List.range total).filterMap (fun k =>
        match e.ports (k + 1) with
        | none => none
        | some ent =>
          some (k + 1, ent, jsNumOr0 ent.rx_bps_live + jsNumOr0 ent.tx_bps_live))
    let maxTraffic := maxTrafficOf (allPorts.map (fun p => p.2.2))
    let visiblePorts : List VisPort :=
      allPorts.filterMap (fun p =>
        let isOn := p.2.1.state = "on"
        let idleSeconds := now - p.2.1.last_changed
        if ¬isOn ∧ cfg.hide_unused_port ∧ idleSeconds ≥ timeperiod then none
        else some { i := p.1, ent := p.2.1, traffic := p.2.2, isOn := isOn })
    let copperPorts := visiblePorts.filter (fun p => p.i < sfpStart)
    let sfpPorts := visiblePorts.filter (fun p => p.i ≥ sfpStart)
    let layout := jsOrStr cfg.layout_mode "linear"
    let byIdx : VisPort → VisPort → Bool := fun a b => a.i ≤ b.i
    let copperOrdered :=
      if layout = "linear" then sortLe byIdx copperPorts
      else
        let evens := sortLe byIdx (copperPorts.filter (fun p => p.i % 2 = 0))
        let odds := sortLe byIdx (copperPorts.filter (fun p => p.i % 2 ≠ 0))
        if layout = "even_top" then evens ++ odds else odds ++ evens
    { noData := none
      title := some title
      bandwidthText := some bwText
      systemBoxes := system
      gaugePct := gauge
      copper := copperOrdered.map (renderPortRow cfg sfpStart maxTraffic now)
      sfp := (sortLe byIdx sfpPorts).map (renderPortRow cfg sfpStart maxTraffic now) }

end CardV1

/-!
## Claim-side definitions

Spec-style presentations of the normalization policy, used to compare the
spec's claims with the embedded source functions.
-/

/-- A normalization rule: a guard on (value, raw unit label) and the rewrite
applied to the value when the guard matches. -/
def BwRule : Type := (ℚ → String → Bool) × (ℚ → ℚ)

/-- First-match rule application: exactly one rule (the first whose guard
holds) rewrites the value; if no guard holds the value is returned
unchanged (already Mbps). -/
def applyFirst : List BwRule → ℚ → String → ℚ
  | [], v, _ => v
  | r :: rs, v, u => if r.1 v u then r.2 v else applyFirst rs v u

/-- Rule: label contains `"mbit"` and the value exceeds 1000 → divide by
1000 (the upstream Kbps-mislabeled-as-Mbit heuristic). -/
def mbitHeuristicRule : BwRule :=
  (fun v u => jsIncludes (lowerStr u) "mbit" && decide (v > 1000), fun v => v / 1000)

/-- Rule: label contains generic `"bit/s"` but none of `"mbit"`, `"kbit"`,
`"gbit"` → divide by 1,000,000 (raw bps → Mbps). -/
def rawBitsRule : BwRule :=
  (fun _ u => jsIncludes (lowerStr u) "bit/s" && !jsIncludes (lowerStr u) "mbit"
      && !jsIncludes (lowerStr u) "kbit" && !jsIncludes (lowerStr u) "gbit",
   fun v => v / 1000000)

/-- Rule: label contains `"kbit"` → divide by 1000. -/
def kbitRule : BwRule :=
  (fun _ u => jsIncludes (lowerStr u) "kbit", fun v => v / 1000)

/-- Rule: label contains `"gbit"` → multiply by 1000. -/
def gbitRule : BwRule :=
  (fun _ u => jsIncludes (lowerStr u) "gbit", fun v => v * 1000)

/-- The rule order actually implemented at lines 208–224 of
`switch-port-card-pro.js`: the Mbit heuristic first, the gbit rule last. -/
def codeOrderRules : List BwRule := [mbitHeuristicRule, rawBitsRule, kbitRule, gbitRule]

/-- The rule order asserted by the specification: gbit first, then the
Mbit heuristic, then generic bit/s, then kbit. -/
def claimOrderRules : List BwRule := [gbitRule, mbitHeuristicRule, rawBitsRule, kbitRule]

/-!
## Claim C1
-/

/-- **C1 (amended).**  `normalizeBandwidthUnit` applies exactly one rule,
first match wins, but in the code's order — label contains `"mbit"` and
value > 1000 → `v / 1000`; else generic `"bit/s"` without
`"mbit"`/`"kbit"`/`"gbit"` → `v / 1000000`; else `"kbit"` → `v / 1000`;
else `"gbit"` → `v * 1000`; otherwise unchanged (already Mbps) — not in the
claimed order (gbit first).  The spec's three sample values hold:
`normalizeBandwidthUnit 1500 "Mbit/s" = 1.5`,
`normalizeBandwidthUnit 500 "Mbit/s" = 500`, and
`normalizeBandwidthUnit 2 "Gbit/s" = 2000`. -/
theorem c1_unit_normalization_first_match :
    (∀ (v : ℚ) (u : String),
      CardV0.normalizeBandwidthUnit v u = applyFirst codeOrderRules v u) ∧
    CardV0.normalizeBandwidthUnit 1500 "Mbit/s" = 1.5 ∧
    CardV0.normalizeBandwidthUnit 500 "Mbit/s" = 500 ∧
    CardV0.normalizeBandwidthUnit 2 "Gbit/s" = 2000 := by
  have hrules : ∀ (v : ℚ) (u : String),
      CardV0.normalizeBandwidthUnit v u = applyFirst codeOrderRules v u := by
    intro v u
    simp only [CardV0.normalizeBandwidthUnit, applyFirst, codeOrderRules,
      mbitHeuristicRule, rawBitsRule, kbitRule, gbitRule]
  refine ⟨hrules, ?_, ?_, ?_⟩
  · have h1 : jsIncludes (lowerStr "Mbit/s") "mbit" = true := by decide
    have h2 : decide ((1500 : ℚ) > 1000) = true := by norm_num
    simp [CardV0.normalizeBandwidthUnit, h1, h2]
    norm_num
  · have h1 : jsIncludes (lowerStr "Mbit/s") "mbit" = true := by decide
    have h2 : decide ((500 : ℚ) > 1000) = false := by norm_num
    have h3 : jsIncludes (lowerStr "Mbit/s") "bit/s" = true := by decide
    have h4 : jsIncludes (lowerStr "Mbit/s") "kbit" = false := by decide
    have h5 : jsIncludes (lowerStr "Mbit/s") "gbit" = false := by decide
    simp [CardV0.normalizeBandwidthUnit, h1, h2, h3, h4, h5]
  · have h1 : jsIncludes (lowerStr "Gbit/s") "mbit" = false := by decide
    have h3 : jsIncludes (lowerStr "Gbit/s") "bit/s" = true := by decide
    have h4 : jsIncludes (lowerStr "Gbit/s") "kbit" = false := by decide
    have h5 : jsIncludes (lowerStr "Gbit/s") "gbit" = true := by decide
    simp [CardV0.normalizeBandwidthUnit, h1, h3, h4, h5]
    norm_num

/-- **C1 (counterexample).**  The claimed order (gbit rule first) disagrees
with the code: on value `2000` with unit label `"mbit gbit"` the claimed
policy yields `2000 * 1000 = 2000000`, while `normalizeBandwidthUnit`
applies the Mbit heuristic first and yields `2`. -/
theorem c1_unit_normalization_order_cex :
    applyFirst claimOrderRules 2000 "mbit gbit" = 2000000 ∧
    CardV0.normalizeBandwidthUnit 2000 "mbit gbit" = 2 ∧
    (2000000 : ℚ) ≠ 2 := by
  have hg : jsIncludes (lowerStr "mbit gbit") "gbit" = true := by decide
  have hm : jsIncludes (lowerStr "mbit gbit") "mbit" = true := by decide
  have h2 : decide ((2000 : ℚ) > 1000) = true := by norm_num
  refine ⟨?_, ?_, by norm_num⟩
  · simp [applyFirst, claimOrderRules, gbitRule, hg]
    norm_num
  · simp [CardV0.normalizeBandwidthUnit, hm, h2]
    norm_num

/-!
## Claims C3, C5, C7 — speed-tier classification
-/

/-- The speed-tier ladder on the **rounded** Mbps value: the highest tier
whose threshold the rounded value meets or exceeds; rounded values in
`1..9` give the literal `"{n}M"` text; rounded values `≤ 0` give `OFF`. -/
def tierByRoundedMbps (m : ℤ) : String × String :=
  if m ≤ 0 then ("off", "OFF")
  else if m ≥ 10000 then ("on-10g", "10G")
  else if m ≥ 5000 then ("on-5g", "5G")
  else if m ≥ 2500 then ("on-2_5g", "2.5G")
  else if m ≥ 1000 then ("on-1g", "1G")
  else if m ≥ 100 then ("on-100m", "100M")
  else if m ≥ 10 then ("on-10m", "10M")
  else ("off", toString m ++ "M")

/-- **C3 (amended).**  For an up port with positive speed,
`classifySpeedTier` selects the highest tier whose threshold is met by the
speed **rounded to the nearest Mbps** (`Math.round(speed_bps / 1e6)`), not
by the exact Mbps value; rounded values in `1..9` give the literal
`"{n}M"` text tier, and positive speeds that round to `0` Mbps give `OFF`.
In particular every `speedBitsPerSecond ≥ 10^10` with `isUp = true` yields
`10G`. -/
theorem c3_speed_tier_of_rounded_mbps :
    ∀ q : ℚ, 0 < q →
      CardV0.classifySpeedTier (some (JSNum.num q)) true
          = tierByRoundedMbps (jsRound (q / 1000000)) ∧
      (10000000000 ≤ q →
        CardV0.classifySpeedTier (some (JSNum.num q)) true = ("on-10g", "10G")) := by
  intro q _
  have hladder : CardV0.classifySpeedTier (some (JSNum.num q)) true
      = tierByRoundedMbps (jsRound (q / 1000000)) := by
    simp only [CardV0.classifySpeedTier, CardV0.speedMbpsOf, tierByRoundedMbps,
      Bool.true_and]
    by_cases hm : jsRound (q / 1000000) > 0
    · rw [if_pos (by simpa using hm)]
      split_ifs <;> first | rfl | omega
    · rw [if_neg (by simpa using hm), if_pos (by omega)]
  refine ⟨hladder, fun h10 => ?_⟩
  have hge : jsRound (q / 1000000) ≥ 10000 := by
    unfold jsRound
    rw [ge_iff_le, Int.le_floor]
    push_cast
    linarith
  rw [hladder]
  unfold tierByRoundedMbps
  rw [if_neg (by omega), if_pos (by omega)]

/-- **C3 (counterexample).**  `classifySpeedTier` does not select "the
highest tier whose Mbps threshold the speed meets or exceeds": a speed of
`9_999_500_000` bit/s is `9999.5` Mbps, which does **not** meet the
`10000` Mbps threshold, yet the code rounds to `10000` and returns `10G`
(the claim's ladder would give `5G`). -/
theorem c3_speed_tier_cex :
    CardV0.classifySpeedTier (some (JSNum.num 9999500000)) true = ("on-10g", "10G") ∧
    ¬((9999500000 : ℚ) / 1000000 ≥ 10000) := by
  have hr : jsRound ((9999500000 : ℚ) / 1000000) = 10000 := by
    rw [jsRound_eq_iff]
    norm_num
  constructor
  · simp only [CardV0.classifySpeedTier, CardV0.speedMbpsOf, hr, Bool.true_and]
    norm_num
  · norm_num

/-- Witness for `c3_speed_tier_of_rounded_mbps` at `q = 10^10`. -/
theorem c3_speed_tier_of_rounded_mbps_witness :
    CardV0.classifySpeedTier (some (JSNum.num 10000000000)) true = ("on-10g", "10G") :=
  (c3_speed_tier_of_rounded_mbps 10000000000 (by norm_num)).2 (by norm_num)

/-- **C5 (confirmed, earlier revision).**  A port record with negative
`speed_bps` classifies exactly like the same record with speed `0` — the
`isOn && speedMbps > 0` guard collapses every non-positive rounded speed to
class `"off"`, text `"OFF"`, empty direction — and so do a `NaN` and a
missing speed attribute (the non-numeric cases).  All functions are total,
so no input throws. -/
theorem c5_negative_speed_clamped :
    ∀ (q rx tx : ℚ) (u : Bool), q < 0 →
      CardV0.classifyPort (some (JSNum.num q)) rx tx u
          = CardV0.classifyPort (some (JSNum.num 0)) rx tx u ∧
      CardV0.classifyPort (some JSNum.nan) rx tx u
          = CardV0.classifyPort (some (JSNum.num 0)) rx tx u ∧
      CardV0.classifyPort none rx tx u
          = CardV0.classifyPort (some (JSNum.num 0)) rx tx u := by
  intro q rx tx u hq
  have hneg : jsRound (q / 1000000) ≤ 0 :=
    jsRound_nonpos_of_neg (div_neg_of_neg_of_pos hq (by norm_num))
  have hng : ¬(0 < jsRound (q / 1000000)) := by omega
  have h00 : jsRound (0 : ℚ) = 0 := by
    rw [jsRound_eq_iff]; norm_num
  refine ⟨?_, ?_, ?_⟩ <;>
    simp [CardV0.classifyPort, CardV0.classifySpeedTier, CardV0.speedMbpsOf,
      hng, h00]

/-- Witness for `c5_negative_speed_clamped` at speed `-5` Mbps. -/
theorem c5_negative_speed_clamped_witness :
    CardV0.classifyPort (some (JSNum.num (-5000000))) 1 2 true
      = CardV0.classifyPort (some (JSNum.num 0)) 1 2 true :=
  (c5_negative_speed_clamped (-5000000) 1 2 true (by norm_num)).1

/-- **C7 (confirmed, earlier revision).**  `classifySpeedTier` returns
`OFF` (class `"off"`, text `"OFF"`) whenever `isUp` is false — for any
reported speed — and whenever `speed_bps = 0`; traffic values do not enter
the classification at all. -/
theorem c7_off_when_down_or_zero :
    ∀ (s : Option JSNum) (u : Bool),
      (u = false → CardV0.classifySpeedTier s u = ("off", "OFF")) ∧
      CardV0.classifySpeedTier (some (JSNum.num 0)) u = ("off", "OFF") := by
  intro s u
  have h0 : jsRound (0 : ℚ) = 0 := by
    rw [jsRound_eq_iff]; norm_num
  constructor
  · intro hu
    subst hu
    simp [CardV0.classifySpeedTier]
  · cases u <;> simp [CardV0.classifySpeedTier, CardV0.speedMbpsOf, h0]

/-- Witness for `c7_off_when_down_or_zero`: a down port with a 1G speed
reading still classifies `OFF`. -/
theorem c7_off_when_down_or_zero_witness :
    CardV0.classifySpeedTier (some (JSNum.num 1000000000)) false = ("off", "OFF") :=
  (c7_off_when_down_or_zero (some (JSNum.num 1000000000)) false).1 rfl

/-!
## Claim C4 — `formatTraffic`
-/

/-- **C4 (confirmed).**  `formatTraffic` returns `"0K"` for `0` and `NaN`;
for at least 1000 Mbps it returns the Gbps value rounded to the nearest
integer with suffix `"G"`; for at least 1 Mbps the rounded Mbps value with
suffix `"M"`; otherwise the input divided by 1000, rounded, with suffix
`"K"`.  In particular `formatTraffic 1500000 = "2M"` and
`formatTraffic 2500000000 = "3G"`. -/
theorem c4_format_traffic :
    ∀ q : ℚ,
      CardV1.formatTraffic JSNum.nan = "0K" ∧
      CardV1.formatTraffic (JSNum.num 0) = "0K" ∧
      (1000 ≤ q / 1000000 →
        CardV1.formatTraffic (JSNum.num q)
          = toString (jsRound (q / 1000000000)) ++ "G") ∧
      (1 ≤ q / 1000000 → q / 1000000 < 1000 →
        CardV1.formatTraffic (JSNum.num q)
          = toString (jsRound (q / 1000000)) ++ "M") ∧
      (q / 1000000 < 1 →
        CardV1.formatTraffic (JSNum.num q)
          = toString (jsRound (q / 1000)) ++ "K") ∧
      CardV1.formatTraffic (JSNum.num 1500000) = "2M" ∧
      CardV1.formatTraffic (JSNum.num 2500000000) = "3G" := by
  intro q
  refine ⟨rfl, by simp [CardV1.formatTraffic], ?_, ?_, ?_, ?_, ?_⟩
  · intro h
    have hq0 : q ≠ 0 := by
      intro h0; rw [h0] at h; norm_num at h
    simp only [CardV1.formatTraffic]
    rw [if_neg hq0, if_pos h, show q / 1000000 / 1000 = q / 1000000000 by ring]
  · intro h1 h2
    have hq0 : q ≠ 0 := by
      intro h0; rw [h0] at h1; norm_num at h1
    simp only [CardV1.formatTraffic]
    rw [if_neg hq0, if_neg (not_le.mpr h2), if_pos h1]
  · intro h
    by_cases hq0 : q = 0
    · subst hq0
      have h0 : jsRound (0 : ℚ) = 0 := by rw [jsRound_eq_iff]; norm_num
      simp [CardV1.formatTraffic, h0]
      decide
    · simp only [CardV1.formatTraffic]
      rw [if_neg hq0, if_neg (not_le.mpr (by linarith)), if_neg (not_le.mpr h)]
  · have hr : jsRound ((1500000 : ℚ) / 1000000) = 2 := by
      rw [jsRound_eq_iff]; norm_num
    have hne : (1500000 : ℚ) ≠ 0 := by norm_num
    simp only [CardV1.formatTraffic]
    rw [if_neg hne, if_neg (by norm_num), if_pos (by norm_num), hr]
    rfl
  · have hr : jsRound ((2500000000 : ℚ) / 1000000 / 1000) = 3 := by
      rw [jsRound_eq_iff]; norm_num
    have hne : (2500000000 : ℚ) ≠ 0 := by norm_num
    simp only [CardV1.formatTraffic]
    rw [if_neg hne, if_pos (by norm_num), hr]
    rfl

/-- Witness for `c4_format_traffic`: 500 Kbit/s formats through the `"K"`
branch. -/
theorem c4_format_traffic_witness :
    CardV1.formatTraffic (JSNum.num 500000)
      = toString (jsRound ((500000 : ℚ) / 1000)) ++ "K" :=
  (c4_format_traffic 500000).2.2.2.2.1 (by norm_num)

/-!
## Claim C6 — direction glyph
-/

/-- **C6 (confirmed).**  For an up port (with non-negative traffic
readings, as the data model requires) the direction glyph is `"↓"` (DOWN)
when `rx > tx * 1.8`, `"↑"` (UP) when `tx > rx * 1.8`, and `"↕"`
(BALANCED) otherwise; for a port that is not up it is `"-"` (NONE). -/
theorem c6_direction_glyph :
    ∀ rx tx : ℚ, 0 ≤ rx → 0 ≤ tx →
      (rx > tx * 1.8 → CardV1.classifyDirection rx tx true = "↓") ∧
      (tx > rx * 1.8 → CardV1.classifyDirection rx tx true = "↑") ∧
      (¬(rx > tx * 1.8) → ¬(tx > rx * 1.8) →
        CardV1.classifyDirection rx tx true = "↕") ∧
      CardV1.classifyDirection rx tx false = "-" := by
  intro rx tx hrx htx
  refine ⟨?_, ?_, ?_, ?_⟩
  · intro h
    simp only [CardV1.classifyDirection, if_true]
    rw [if_pos h]
  · intro h
    have hn : ¬(rx > tx * 1.8) := by
      intro h2
      nlinarith
    simp only [CardV1.classifyDirection, if_true]
    rw [if_neg hn, if_pos h]
  · intro h1 h2
    simp only [CardV1.classifyDirection, if_true]
    rw [if_neg h1, if_neg h2]
  · simp [CardV1.classifyDirection]

/-- Witness for `c6_direction_glyph` at the spec's sample
`rx = 1000, tx = 100` (DOWN). -/
theorem c6_direction_glyph_witness :
    CardV1.classifyDirection 1000 100 true = "↓" :=
  (c6_direction_glyph 1000 100 (by norm_num) (by norm_num)).1 (by norm_num)

/-!
## Claim C8 — VLAN palette
-/

/-- **C8 (amended).**  Under the `vlan` scheme a port with a present
**nonzero** `vlanId` gets the palette entry at index `vlanId mod 20` of the
fixed 20-entry palette; a port without a VLAN — or with `vlanId = 0`, which
the JS truthiness test also treats as absent — gets the neutral default
`"#607d8b"`. -/
theorem c8_vlan_palette :
    ∀ v : ℕ, v ≠ 0 →
      CardV1.vlanSchemeBg (some v) = CardV1.vlanColors.getD (v % 20) "" ∧
      CardV1.vlanSchemeBg none = "#607d8b" ∧
      CardV1.vlanSchemeBg (some 0) = "#607d8b" ∧
      CardV1.vlanColors.length = 20 := by
  intro v hv
  refine ⟨?_, by decide, by decide, by decide⟩
  have ht : jsTruthyNat (some v) = true := by
    simp [jsTruthyNat, hv]
  simp [CardV1.vlanSchemeBg, CardV1.vlanColor, ht, CardV1.vlanColors]

/-- **C8 (counterexample).**  A present `vlanId = 0` does not get
`palette[0 mod 20]`: the JS falsiness of `0` routes it to the neutral
default instead. -/
theorem c8_vlan_palette_cex :
    CardV1.vlanSchemeBg (some 0) = "#607d8b" ∧
    CardV1.vlanColors.getD (0 % 20) "" = "#dc5d87ff" ∧
    ("#607d8b" : String) ≠ "#dc5d87ff" := by
  refine ⟨by decide, by decide, by decide⟩

/-- Witness for `c8_vlan_palette` at `vlanId = 7`. -/
theorem c8_vlan_palette_witness :
    CardV1.vlanSchemeBg (some 7) = CardV1.vlanColors.getD (7 % 20) "" :=
  (c8_vlan_palette 7 (by decide)).1

/-!
## Claim C2 — heatmap buckets
-/

theorem one_le_maxTrafficOf (ts : List ℚ) : 1 ≤ CardV1.maxTrafficOf ts := by
  induction ts with
  | nil => simp [CardV1.maxTrafficOf]
  | cons a as ih =>
    simp only [CardV1.maxTrafficOf, List.foldr_cons] at *
    exact le_max_of_le_right ih

theorem mem_le_maxTrafficOf (ts : List ℚ) (u : ℚ) (hu : u ∈ ts) :
    u ≤ CardV1.maxTrafficOf ts := by
  induction ts with
  | nil => cases hu
  | cons a as ih =>
    simp only [CardV1.maxTrafficOf, List.foldr_cons] at *
    rcases List.mem_cons.mp hu with rfl | h
    · exact le_max_left _ _
    · exact le_max_of_le_right (ih h)

theorem maxTrafficOf_le (ts : List ℚ) (b : ℚ) (h : ∀ u ∈ ts, u ≤ b)
    (hb : 1 ≤ b) : CardV1.maxTrafficOf ts ≤ b := by
  induction ts with
  | nil => simpa [CardV1.maxTrafficOf] using hb
  | cons a as ih =>
    simp only [CardV1.maxTrafficOf, List.foldr_cons] at *
    exact max_le (h a (List.mem_cons_self a as))
      (ih (fun u hu => h u (List.mem_cons_of_mem a hu)))

/-- For a batch whose maximum element is `t`, the computed
`Math.max(...traffics, 1)` is `max t 1`. -/
theorem maxTrafficOf_eq_max (ts : List ℚ) (t : ℚ) (ht : t ∈ ts)
    (hmax : ∀ u ∈ ts, u ≤ t) : CardV1.maxTrafficOf ts = max t 1 :=
  le_antisymm
    (maxTrafficOf_le ts (max t 1)
      (fun u hu => le_trans (hmax u hu) (le_max_left _ _)) (le_max_right _ _))
    (max_le (mem_le_maxTrafficOf ts t ht) (one_le_maxTrafficOf ts))

set_option maxHeartbeats 2000000 in
/-- **C2 (amended).**  Under the heatmap scheme with
`ratio = (rx+tx) / max(trafficMax, 1)`, an up port is assigned class
`heatmap-k` for the unique `k` in `1..10` with
`ratio > (k-1)/10` and (`k = 10` or `ratio ≤ k/10`) — the bottom bucket
`heatmap-1` catching everything `≤ 0.1` — i.e. the claimed bound
`(10-k)/10` must read `(k-1)/10`.  A port whose combined throughput equals
the batch maximum lands in `heatmap-10` provided that maximum exceeds
`0.9` (bit/s); an all-idle batch (maximum `0`) lands in `heatmap-1`
instead. -/
theorem c2_heatmap_buckets :
    (∀ (t m : ℚ) (k : ℕ), 0 < m → 0 ≤ t → t ≤ m → 1 ≤ k → k ≤ 10 →
      ((k : ℚ) - 1) / 10 < t / m → (k = 10 ∨ t / m ≤ (k : ℚ) / 10) →
      CardV1.heatmapClass t m = "heatmap-" ++ toString k) ∧
    (∀ (ts : List ℚ) (t : ℚ), t ∈ ts → (∀ u ∈ ts, u ≤ t) →
      0.9 < t → CardV1.heatmapClass t (CardV1.maxTrafficOf ts) = "heatmap-10") := by
  constructor
  · intro t m k hm ht htm hk1 hk10 hlow hhigh
    have hr1 : t / m ≤ 1 := (div_le_one hm).mpr htm
    have hup : t / m ≤ (k : ℚ) / 10 := by
      rcases hhigh with rfl | h
      · push_cast
        linarith
      · exact h
    simp only [CardV1.heatmapClass]
    rw [if_pos hm]
    interval_cases k <;>
      (push_cast at hlow hup) <;>
      (norm_num at hlow hup) <;>
      (split_ifs <;> first | rfl | (exfalso; linarith))
  · intro ts t ht hmax h09
    rw [maxTrafficOf_eq_max ts t ht hmax]
    rcases le_total t 1 with h1 | h1
    · rw [max_eq_right h1]
      simp only [CardV1.heatmapClass]
      rw [if_pos (by norm_num : (1 : ℚ) > 0), div_one, if_pos h09]
    · rw [max_eq_left h1]
      have ht0 : (0 : ℚ) < t := by linarith
      simp only [CardV1.heatmapClass]
      rw [if_pos ht0, div_self (ne_of_gt ht0),
        if_pos (by norm_num : (1 : ℚ) > 0.9)]

/-- **C2 (counterexample).**  It is not true that every port whose combined
throughput equals the batch maximum lands in `heatmap-10`: in an all-idle
batch (`rx+tx = 0` for every port) the maximum is `0`, the denominator
floors at `1`, the ratio is `0`, and the port lands in `heatmap-1`. -/
theorem c2_heatmap_top_bucket_cex :
    ¬ (∀ (ts : List ℚ) (t : ℚ), t ∈ ts → (∀ u ∈ ts, u ≤ t) →
        CardV1.heatmapClass t (CardV1.maxTrafficOf ts) = "heatmap-10") := by
  intro h
  have h0 := h [0] 0 (List.mem_singleton.mpr rfl)
    (fun u hu => le_of_eq (List.mem_singleton.mp hu))
  have hm : CardV1.maxTrafficOf [0] = 1 := by
    simp [CardV1.maxTrafficOf]
  rw [hm] at h0
  norm_num [CardV1.heatmapClass] at h0
  exact absurd h0 (by decide)

/-- Witness for `c2_heatmap_buckets`: a one-port batch with combined
throughput `1` bit/s lands in the top bucket. -/
theorem c2_heatmap_buckets_witness :
    CardV1.heatmapClass 1 (CardV1.maxTrafficOf [1]) = "heatmap-10" :=
  c2_heatmap_buckets.2 [1] 1 (List.mem_singleton.mpr rfl)
    (fun u hu => le_of_eq (List.mem_singleton.mp hu)) (by norm_num)

/-!
## Claim C9 — determinism / idempotence
-/

/-- **C9 (confirmed).**  The per-port classification and the whole render
pass are pure functions of the port record, the configuration (including
the color scheme) and the shared batch maximum: running them twice on the
same immutable inputs yields identical `DisplayDescriptor`s — tooltip
lines included — and identical `RenderOutput`s.  (The embedding makes the
side-effect-freeness explicit: no state survives between the two runs.) -/
theorem c9_classification_idempotent :
    (∀ (cfg : Config) (sfpStart : ℕ) (maxTraffic now : ℚ) (p : VisPort),
      CardV1.renderPortRow cfg sfpStart maxTraffic now p
          = CardV1.renderPortRow cfg sfpStart maxTraffic now p ∧
      (CardV1.renderPortRow cfg sfpStart maxTraffic now p).tooltip
          = (CardV1.renderPortRow cfg sfpStart maxTraffic now p).tooltip) ∧
    (∀ (e : SwitchEntities) (cfg : Config) (now : ℚ),
      CardV1.render e cfg now = CardV1.render e cfg now) :=
  ⟨fun _ _ _ _ _ => ⟨rfl, rfl⟩, fun _ _ _ => rfl⟩

/-!
## Claim C10 — empty entity map
-/

/-- **C10 (confirmed).**  When the collected entity map is empty, `_render`
replaces the header with "No data — check integration" and returns
immediately: no title or bandwidth text is written, no system boxes, no
gauge, and no port tiles (copper or SFP). -/
theorem c10_empty_entities_no_data :
    ∀ (e : SwitchEntities) (cfg : Config) (now : ℚ), e.keys = [] →
      CardV1.render e cfg now =
        { noData := some "No data — check integration", title := none,
          bandwidthText := none, systemBoxes := none, gaugePct := none,
          copper := [], sfp := [] } := by
  intro e cfg now h
  simp [CardV1.render, h]

/-- An entity map with no collected entities. -/
def emptyEntities : SwitchEntities :=
  { keys := [], bandwidth := none, cpu := none, memory := none, uptime := none,
    hostname := none, total_poe := none, firmware := none, custom_value := none,
    ports := fun _ => none }

/-- A concrete default-flavored configuration (used by the C10 witness). -/
def sampleConfig : Config :=
  { name := none, color_scheme := none, total_ports := none,
    sfp_start_port := none, ports_per_row := none, layout_mode := none,
    row2 := none, row3 := none, port_size := none, truncate_text := false,
    custom_port_text := "Custom", custom_text := "Custom",
    hide_unused_port := false, hide_unused_port_hours := 0,
    max_bandwidth_gbps := none, show_total_bandwidth := true,
    show_system_info := true,
    system_boxes :=
      { cpu := true, memory := true, uptime := true, hostname := true,
        poe := true, firmware := true, custom := true } }

/-- Witness for `c10_empty_entities_no_data` on a concrete empty map. -/
theorem c10_empty_entities_no_data_witness :
    CardV1.render emptyEntities sampleConfig 0 =
      { noData := some "No data — check integration", title := none,
        bandwidthText := none, systemBoxes := none, gaugePct := none,
        copper := [], sfp := [] } :=
  c10_empty_entities_no_data emptyEntities sampleConfig 0 rfl

end SwitchPortCard
